import Mathlib

/-!
Verification of the connection/request-multiplexing core of the
spruthub-mcp-server repository (`src/spruthub_mcp/client.py`,
class `SprutHubClient`), against its natural-language specification.

The client is shallowly embedded: JSON values become an inductive type,
the pure message-handling and params-building logic become Lean
functions translated line by line from the Python source, and the
stateful connect/authenticate/receive-loop logic becomes explicit state
passing (plus a small labelled transition system for the cooperative
scheduling property of `call_method`).
-/

namespace SprutHub

/-- JSON values, the data exchanged on the wire.  Python's `None` (the
image of JSON `null` under `json.loads`, and the result of a missing
`dict.get`) is `Json.null`. -/
inductive Json where
  | null : Json
  | bool : Bool → Json
  | num : Int → Json
  | str : String → Json
  | arr : List Json → Json
  | obj : List (String × Json) → Json

namespace Json

/-- Python truthiness of a JSON value (`bool(x)`): `None`, `False`, `0`,
`""`, `[]` and `{}` are falsy, everything else truthy.  Used by the code
in `params or {}` and `if ... not token`. -/
def truthy : Json → Bool
  | .null => false
  | .bool b => b
  | .num n => n != 0
  | .str s => s != ""
  | .arr xs => !xs.isEmpty
  | .obj kvs => !kvs.isEmpty

/-- Lookup of a key in a JSON object: `data.get(key)` returning `None`
(i.e. `Json.null`) when the key is absent.  On a non-object this helper
is not used by the code (the code guards with `isinstance(data, dict)`). -/
def getD : Json → String → Json
  | .obj kvs, k =>
    match kvs.lookup k with
    | some v => v
    | none => .null
  | _, _ => .null

/-- Presence test of a key in a JSON object, `key in data` for a dict. -/
def hasKey : Json → String → Bool
  | .obj kvs, k => (kvs.lookup k).isSome
  | _, _ => false

/-- Lookup returning an `Option`: `some v` exactly when the value is an
object carrying the key. -/
def getKey? : Json → String → Option Json
  | .obj kvs, k => kvs.lookup k
  | _, _ => none

/-- Whether a JSON value is an object (a Python dict). -/
def isObj : Json → Bool
  | .obj _ => true
  | _ => false

end Json

/-- Translation of `SprutHubClient._get_nested` (client.py:107-113):
walk a list of keys, returning `None` as soon as the current value is
not a dict, and `data.get(key)` (missing keys give `None`) otherwise. -/
def getNested : Json → List String → Json
  | data, [] => data
  | data, k :: ks =>
    if data.isObj then getNested (data.getD k) ks else .null

/-- Python's `str.split` on the separator `"."`, over the character
list: splitting never returns `[]`, empty segments are kept, and a
string without the separator yields the one-element list of itself. -/
def splitDotChars : List Char → List (List Char)
  | [] => [[]]
  | c :: cs =>
    match splitDotChars cs with
    | [] => [[]]
    | h :: t => if c = '.' then [] :: h :: t else (c :: h) :: t

/-- The method string split on `"."`, as in `method.split(".")`
(client.py:209). -/
def splitDot (s : String) : List String :=
  (splitDotChars s.toList).map (fun l => String.mk l)

/-- Translation of `params or {}` (client.py:210): a falsy `params`
(in particular `None`, the default) is replaced by the empty dict. -/
def paramsOrEmpty : Option Json → Json
  | none => .obj []
  | some v => if v.truthy then v else .obj []

/-- Translation of the nested-params construction in
`SprutHubClient.call_method` (client.py:209-213): split the method name
on `"."` and wrap the params map from innermost to outermost segment. -/
def buildWireParams (method : String) (params : Option Json) : Json :=
  (splitDot method).reverse.foldl (fun nested part => .obj [(part, nested)])
    (paramsOrEmpty params)

/-! ## Error taxonomy

The Python code raises `RuntimeError` with distinct messages; the
specification names the cases.  Each constructor records the payload the
corresponding `RuntimeError` message carries. -/

/-- The failure cases of the client, one constructor per distinct
`RuntimeError` raised by `client.py`, under the names the specification
gives them. -/
inductive ClientError where
  /-- `RuntimeError(f"Request {id} timed out")` (client.py:152). -/
  | requestTimeout (id : Int)
  /-- `RuntimeError(f"JSON-RPC error: {payload}")` (client.py:167):
  the server-supplied `error` object, carried verbatim. -/
  | remoteMethod (payload : Json)
  /-- `RuntimeError("Not connected to Sprut.hub server")` (client.py:130). -/
  | notConnected
  /-- `RuntimeError(f"Auth step {n} failed: ...")`
  (client.py:77, 89, 102). -/
  | authFailed (step : Nat)

/-! ## Receive-loop message handling

`SprutHubClient._receive_loop` (client.py:154-186) processes inbound
frames one at a time.  For each decoded frame (client.py:159-173): if it
carries an `id` present in the pending table, the matching future is
popped and completed — with an exception wrapping the `error` payload
when an `error` field is present, with `data.get("result", {})`
otherwise; any other frame is logged as a notification and the table is
untouched.  Exceptions during processing are caught inside the loop
(client.py:175-178), so handling is total: it is modelled as a total
function from table and frame to new table plus observable effect. -/

/-- What a pending future is completed with. -/
inductive Outcome where
  /-- `future.set_result(data.get("result", {}))` (client.py:170). -/
  | ok (result : Json)
  /-- `future.set_exception(RuntimeError(f"JSON-RPC error: {e}"))`
  (client.py:166-168) — `RemoteMethodError` in the specification,
  carrying the frame's `error` payload verbatim. -/
  | err (payload : Json)

/-- The observable effect of processing one inbound frame. -/
inductive MsgEffect where
  /-- The pending future registered under `id` was popped and completed. -/
  | completed (id : Int) (o : Outcome)
  /-- The frame was only logged (client.py:171-173); no future touched. -/
  | notification

/-- The correlation id of a frame, when the frame is an object whose
`id` field holds a number that could match an integer key of the
pending table (`"id" in data and data["id"] in self._pending_requests`,
client.py:162). -/
def frameId? (data : Json) : Option Int :=
  match data.getKey? "id" with
  | some (.num i) => some i
  | _ => none

/-- The completion a matched frame delivers: error payload verbatim if
an `error` field is present, else the `result` field defaulting to the
empty object (client.py:165-170). -/
def frameOutcome (data : Json) : Outcome :=
  if data.hasKey "error" then .err (data.getD "error")
  else .ok (match data.getKey? "result" with
            | some v => v
            | none => .obj [])

/-- Processing of one inbound frame against the pending table, the body
of the receive loop (client.py:159-173).  The pending table is modelled
by its key set (a list of correlation ids); the completion delivered to
the popped future is reported in the effect. -/
def handleMessage (pending : List Int) (data : Json) : List Int × MsgEffect :=
  match frameId? data with
  | some i =>
    if i ∈ pending then
      (pending.erase i, .completed i (frameOutcome data))
    else
      (pending, .notification)
  | none => (pending, .notification)

/-- The receive loop over a list of inbound frames, in arrival order:
threads the pending table through `handleMessage` and collects the
effects. -/
def runReceive (pending : List Int) (frames : List Json) : List Int × List MsgEffect :=
  match frames with
  | [] => (pending, [])
  | f :: fs =>
    let r := handleMessage pending f
    let rest := runReceive r.1 fs
    (rest.1, r.2 :: rest.2)

/-- Timeout of a request: `asyncio.wait_for(future, timeout=30.0)`
expiring makes `_send_raw_request` pop the pending entry and raise
(client.py:147-152).  Returns the new table and the raised error. -/
def onRequestTimeout (pending : List Int) (i : Int) : List Int × ClientError :=
  (pending.erase i, .requestTimeout i)

/-! ## Request-id counter

`SprutHubClient._get_request_id` (client.py:115-118) over the counter
initialised to `0` (client.py:37). -/

/-- One call of `_get_request_id`: increments the counter and returns
it, paired with the new counter state. -/
def getRequestId (c : Nat) : Nat × Nat := (c + 1, c + 1)

/-- The ids returned by `k` successive calls of `_get_request_id`
starting from counter state `c`. -/
def issuedIds (c : Nat) : Nat → List Nat
  | 0 => []
  | k + 1 =>
    let r := getRequestId c
    r.1 :: issuedIds r.2 k

/-! ## Authentication

`SprutHubClient._authenticate` (client.py:66-105) runs three round
trips and checks each response; the whole exchange is a function of the
three server responses.  `connect` (client.py:48-64) sets the connected
event only after `_authenticate` returns without raising. -/

/-- Whether a JSON value is exactly the given string — the Python
comparison `value == "literal"` (false for any non-string value). -/
def Json.isStrVal (j : Json) (s : String) : Bool :=
  match j with
  | .str x => x == s
  | _ => false

/-- The three request payloads `_authenticate` sends, in order
(client.py:69-71, 82-84, 94-96). -/
def authRequests (email password : String) : List Json :=
  [ .obj [("account", .obj [("auth", .obj [("params", .arr [])])])],
    .obj [("account", .obj [("answer", .obj [("data", .str email)])])],
    .obj [("account", .obj [("answer", .obj [("data", .str password)])])] ]

/-- The response checks of `_authenticate`, given the three server
responses in order: on success returns the token value extracted from
the third response, otherwise the step (1, 2 or 3) whose check failed
(client.py:73-104).  Step 1 requires a success status and an email
question; step 2 requires a password question; step 3 requires a
success status and a truthy token. -/
def authenticate (r1 r2 r3 : Json) : Except ClientError Json :=
  if !((getNested r1 ["account", "auth", "status"]).isStrVal "ACCOUNT_RESPONSE_SUCCESS")
      || !((getNested r1 ["account", "auth", "question", "type"]).isStrVal "QUESTION_TYPE_EMAIL") then
    .error (.authFailed 1)
  else if !((getNested r2 ["account", "answer", "question", "type"]).isStrVal "QUESTION_TYPE_PASSWORD") then
    .error (.authFailed 2)
  else if !((getNested r3 ["account", "answer", "status"]).isStrVal "ACCOUNT_RESPONSE_SUCCESS")
      || !(getNested r3 ["account", "answer", "token"]).truthy then
    .error (.authFailed 3)
  else
    .ok (getNested r3 ["account", "answer", "token"])

/-- The conjunction of all five response checks of the 3-step exchange,
matching the specification's expected-response description. -/
def expectedAuthResponses (r1 r2 r3 : Json) : Bool :=
  (getNested r1 ["account", "auth", "status"]).isStrVal "ACCOUNT_RESPONSE_SUCCESS"
    && (getNested r1 ["account", "auth", "question", "type"]).isStrVal "QUESTION_TYPE_EMAIL"
    && (getNested r2 ["account", "answer", "question", "type"]).isStrVal "QUESTION_TYPE_PASSWORD"
    && (getNested r3 ["account", "answer", "status"]).isStrVal "ACCOUNT_RESPONSE_SUCCESS"
    && (getNested r3 ["account", "answer", "token"]).truthy

/-- The token and readiness state the authentication exchange acts on:
`_token` (client.py:38, set at client.py:104) and `_connected_event`
(client.py:40, set at client.py:63). -/
structure AuthState where
  token : Option Json
  connected : Bool

/-- The tail of `connect` after the socket is open (client.py:61-63):
run `_authenticate` against the three responses; on success the token
is stored (client.py:104) and the connected event set (client.py:63);
on a raise the state is left as it was and the error propagates out of
`connect`. -/
def connectAuth (s : AuthState) (r1 r2 r3 : Json) : AuthState × Except ClientError Unit :=
  match authenticate r1 r2 r3 with
  | .ok t => ({ token := some t, connected := true }, .ok ())
  | .error e => (s, .error e)

/-! ## Disconnect handlers

The receive loop's `except ConnectionClosed` handler (client.py:180-183)
and `close` (client.py:218-232).  Both clear the connected event and the
token; neither touches the pending table or completes any pending
future. -/

/-- The session state the disconnect handlers act on. -/
structure SessionState where
  token : Option Json
  connected : Bool
  pending : List Int

/-- Translation of the `except websockets.exceptions.ConnectionClosed`
handler (client.py:180-183), reached when the socket closes gracefully
or with an error: log, clear the connected event, clear the token.  The
second component lists the `(id, error)` completions the handler
delivers to pending requests — the handler body performs none. -/
def onConnectionClosed (s : SessionState) : SessionState × List (Int × ClientError) :=
  ({ token := none, connected := false, pending := s.pending }, [])

/-- Translation of `close` (client.py:218-232): cancel the receive
task, close the socket if open, clear the connected event, clear the
token.  The second component lists the completions delivered to pending
requests — `close` performs none. -/
def closeSession (s : SessionState) : SessionState × List (Int × ClientError) :=
  ({ token := none, connected := false, pending := s.pending }, [])

/-! ## Connect

`SprutHubClient.connect` (client.py:48-64).  The guard at
client.py:50-52 returns immediately when the socket is already open;
otherwise a socket is opened, the receive loop spawned, and the 3-step
authentication run (each auth round trip consumes one request id via
`_send_raw_request`, client.py:132). -/

/-- The full per-client state `connect` can read or write:
`ws`/`ws.state` (as an open flag), `_token`, `_request_id`,
`_pending_requests` (its key set), `_connected_event`. -/
structure ClientState where
  wsOpen : Bool
  token : Option Json
  requestId : Nat
  pending : List Int
  connected : Bool

/-- Side effects of one `connect` call: sockets opened
(`websockets.connect`, client.py:55), receive loops spawned
(`asyncio.create_task`, client.py:58), authentication exchanges started
(`_authenticate`, client.py:61). -/
structure ConnectEffects where
  socketsOpened : Nat
  loopsSpawned : Nat
  authStarts : Nat

/-- How many request ids the authentication exchange consumed: one per
round trip actually performed before success or the failing step. -/
def authRequestCount : Except ClientError Json → Nat
  | .ok _ => 3
  | .error (.authFailed 1) => 1
  | .error (.authFailed 2) => 2
  | _ => 3

/-- Translation of `connect` (client.py:48-64), with the three server
responses to the authentication round trips supplied as inputs.  If the
socket is already open it returns at once (client.py:50-52) with no
effects; otherwise it opens the socket, spawns the receive loop, runs
the 3-step authentication (storing the token on success, client.py:104)
and sets the connected event (client.py:63); an authentication failure
propagates out and leaves the event unset. -/
def connectRun (s : ClientState) (r1 r2 r3 : Json) :
    ClientState × ConnectEffects × Except ClientError Unit :=
  if s.wsOpen then
    (s, ⟨0, 0, 0⟩, .ok ())
  else
    let a := authenticate r1 r2 r3
    let rid := s.requestId + authRequestCount a
    match a with
    | .ok t =>
      ({ wsOpen := true, token := some t, requestId := rid,
         pending := s.pending, connected := true }, ⟨1, 1, 1⟩, .ok ())
    | .error e =>
      ({ wsOpen := true, token := s.token, requestId := rid,
         pending := s.pending, connected := s.connected }, ⟨1, 1, 1⟩, .error e)

/-! ## The ready gate of `call_method`

`call_method` (client.py:188-216) begins with
`await self._connected_event.wait()` (client.py:205) and only then
builds the frame and sends it through `_send_raw_request`; between the
gate wait returning and `ws.send` starting (client.py:145) the
coroutine reaches no other suspension point, so under asyncio's
cooperative scheduling the gate pass and the send form one step.  The
event is set in exactly one place, `connect` after `_authenticate`
returns successfully (client.py:61-63), and cleared on disconnect
(client.py:182, 186, 231).  This is modelled as a labelled transition
system over the gate, an authentication-completed flag, the number of
`call_method` invocations blocked at the gate, and a log recording, for
each frame sent by an invocation, whether authentication had completed
at the moment of the send. -/

/-- State of the gate transition system. -/
structure GateState where
  gate : Bool
  authDone : Bool
  waitingCalls : Nat
  sentLog : List Bool

/-- The transitions: `connect` completes authentication and then sets
the gate; a disconnect clears the gate; a new `call_method` invocation
arrives and blocks at the gate; a blocked invocation passes the gate —
enabled only while the gate is set — and sends its frame in the same
step. -/
inductive GateStep : GateState → GateState → Prop where
  | connectAuthOk (s : GateState) :
      GateStep s { s with authDone := true, gate := true }
  | disconnect (s : GateState) :
      GateStep s { s with gate := false }
  | newCall (s : GateState) :
      GateStep s { s with waitingCalls := s.waitingCalls + 1 }
  | passGateAndSend (s : GateState) (hg : s.gate = true)
      (hw : 0 < s.waitingCalls) :
      GateStep s { s with waitingCalls := s.waitingCalls - 1,
                          sentLog := s.sentLog ++ [s.authDone] }

/-- The initial state of a fresh client: gate unset, authentication not
done, no invocations, nothing sent. -/
def initGate : GateState := ⟨false, false, 0, []⟩

/-- Reachability under `GateStep`. -/
def GateReach : GateState → GateState → Prop :=
  Relation.ReflTransGen GateStep

/-! ## Helper lemmas -/

/-- A falsy-or-default on an object is the object itself (an empty dict
and `{}` coincide). -/
lemma paramsOrEmpty_obj (p : Json) (hp : p.isObj = true) :
    paramsOrEmpty (some p) = p := by
  cases p with
  | obj kvs =>
    cases kvs with
    | nil => rfl
    | cons kv kvs => rfl
  | null => simp [Json.isObj] at hp
  | bool b => simp [Json.isObj] at hp
  | num n => simp [Json.isObj] at hp
  | str s => simp [Json.isObj] at hp
  | arr xs => simp [Json.isObj] at hp

/-- A key that `getKey?` finds is present. -/
lemma hasKey_of_getKey? {data : Json} {k : String} {v : Json}
    (h : data.getKey? k = some v) : data.hasKey k = true := by
  cases data <;> simp_all [Json.getKey?, Json.hasKey]

/-- The default-lookup agrees with `getKey?` on a present key. -/
lemma getD_of_getKey? {data : Json} {k : String} {v : Json}
    (h : data.getKey? k = some v) : data.getD k = v := by
  cases data <;> simp_all [Json.getKey?, Json.getD]

/-- A frame whose id is not pending leaves the table unchanged and is a
notification. -/
lemma handleMessage_not_pending {pending : List Int} {data : Json} {i : Int}
    (hid : frameId? data = some i) (hnp : i ∉ pending) :
    handleMessage pending data = (pending, .notification) := by
  simp [handleMessage, hid, hnp]

/-- A frame whose id is pending pops the id and completes it with the
frame's outcome. -/
lemma handleMessage_pending {pending : List Int} {data : Json} {i : Int}
    (hid : frameId? data = some i) (hp : i ∈ pending) :
    handleMessage pending data = (pending.erase i, .completed i (frameOutcome data)) := by
  simp [handleMessage, hid, hp]

/-- The ids issued from counter state `c` are the interval starting at
`c + 1`. -/
lemma issuedIds_eq_range' : ∀ (k c : Nat), issuedIds c k = List.range' (c + 1) k := by
  intro k
  induction k with
  | zero => intro c; rfl
  | succ k ih =>
    intro c
    simp [issuedIds, getRequestId, List.range', ih (c + 1)]

/-- Correlation characterisation of the receive loop: with distinct
pending ids and distinct frame ids, an effect `completed i o` occurs
exactly when `i` was pending and some frame carries id `i` with outcome
`o` — independently of arrival order. -/
lemma runReceive_completed_iff (i : Int) (o : Outcome) :
    ∀ (frames : List Json) (pending : List Int), pending.Nodup →
      (frames.filterMap frameId?).Nodup →
      (MsgEffect.completed i o ∈ (runReceive pending frames).2 ↔
        i ∈ pending ∧ ∃ f ∈ frames, frameId? f = some i ∧ frameOutcome f = o) := by
  intro frames
  induction frames with
  | nil =>
    intro pending hp hf
    simp [runReceive]
  | cons f fs ih =>
    intro pending hp hf
    cases hid : frameId? f with
    | some j =>
      have hf' : j ∉ fs.filterMap frameId? ∧ (fs.filterMap frameId?).Nodup := by
        rw [List.filterMap_cons, hid] at hf
        exact List.nodup_cons.mp hf
      by_cases hj : j ∈ pending
      · rw [show runReceive pending (f :: fs) =
            ((runReceive (pending.erase j) fs).1,
             MsgEffect.completed j (frameOutcome f) :: (runReceive (pending.erase j) fs).2) by
          simp [runReceive, handleMessage_pending hid hj]]
        constructor
        · intro hmem
          rcases List.mem_cons.mp hmem with heq | hmem'
          · rw [MsgEffect.completed.injEq] at heq
            obtain ⟨rfl, ho⟩ := heq
            exact ⟨hj, f, List.mem_cons_self f fs, hid, ho.symm⟩
          · obtain ⟨hip, f', hf'mem, hfid, hfo⟩ :=
              (ih (pending.erase j) (hp.erase j) hf'.2).mp hmem'
            exact ⟨List.mem_of_mem_erase hip, f', List.mem_cons_of_mem f hf'mem, hfid, hfo⟩
        · rintro ⟨hip, f', hf'mem, hfid, hfo⟩
          rcases List.mem_cons.mp hf'mem with rfl | hf'tail
          · rw [hid] at hfid
            injection hfid with hij
            subst hij
            rw [← hfo]
            exact List.mem_cons_self _ _
          · have hiNe : i ≠ j := by
              intro hij
              subst hij
              exact hf'.1 (List.mem_filterMap.mpr ⟨f', hf'tail, hfid⟩)
            have hi' : i ∈ pending.erase j := (List.mem_erase_of_ne hiNe).mpr hip
            exact List.mem_cons_of_mem _
              ((ih (pending.erase j) (hp.erase j) hf'.2).mpr ⟨hi', f', hf'tail, hfid, hfo⟩)
      · rw [show runReceive pending (f :: fs) =
            ((runReceive pending fs).1,
             MsgEffect.notification :: (runReceive pending fs).2) by
          simp [runReceive, handleMessage_not_pending hid hj]]
        have hf2 : (fs.filterMap frameId?).Nodup := by
          rw [List.filterMap_cons, hid] at hf
          exact (List.nodup_cons.mp hf).2
        constructor
        · intro hmem
          rcases List.mem_cons.mp hmem with heq | hmem'
          · exact absurd heq (by simp)
          · obtain ⟨hip, f', hf'mem, hfid, hfo⟩ := (ih pending hp hf2).mp hmem'
            exact ⟨hip, f', List.mem_cons_of_mem f hf'mem, hfid, hfo⟩
        · rintro ⟨hip, f', hf'mem, hfid, hfo⟩
          rcases List.mem_cons.mp hf'mem with rfl | hf'tail
          · rw [hid] at hfid
            injection hfid with hij
            subst hij
            exact absurd hip hj
          · exact List.mem_cons_of_mem _
              ((ih pending hp hf2).mpr ⟨hip, f', hf'tail, hfid, hfo⟩)
    | none =>
      have hf2 : (fs.filterMap frameId?).Nodup := by
        rw [List.filterMap_cons, hid] at hf
        exact hf
      rw [show runReceive pending (f :: fs) =
          ((runReceive pending fs).1,
           MsgEffect.notification :: (runReceive pending fs).2) by
        simp [runReceive, handleMessage, hid]]
      constructor
      · intro hmem
        rcases List.mem_cons.mp hmem with heq | hmem'
        · exact absurd heq (by simp)
        · obtain ⟨hip, f', hf'mem, hfid, hfo⟩ := (ih pending hp hf2).mp hmem'
          exact ⟨hip, f', List.mem_cons_of_mem f hf'mem, hfid, hfo⟩
      · rintro ⟨hip, f', hf'mem, hfid, hfo⟩
        rcases List.mem_cons.mp hf'mem with rfl | hf'tail
        · rw [hid] at hfid
          exact absurd hfid (by simp)
        · exact List.mem_cons_of_mem _
            ((ih pending hp hf2).mpr ⟨hip, f', hf'tail, hfid, hfo⟩)

/-! ## Claim theorems -/

/-- C2: for every dotted method name with segments `a.b.c` and every
params map `p`, `call_method` builds the nested wire params
`{a:{b:{c:p}}}` (wrapping innermost to outermost), and for every
single-segment name `x` it builds `{x:p}`. -/
theorem call_method_wire_params (p : Json) (hp : p.isObj = true) :
    (∀ m a b c, splitDot m = [a, b, c] →
      buildWireParams m (some p) = .obj [(a, .obj [(b, .obj [(c, p)])])]) ∧
    (∀ m x, splitDot m = [x] →
      buildWireParams m (some p) = .obj [(x, p)]) := by
  constructor
  · intro m a b c h
    simp [buildWireParams, h, paramsOrEmpty_obj p hp]
  · intro m x h
    simp [buildWireParams, h, paramsOrEmpty_obj p hp]

/-- Witness for C2 at `m = "a.b.c"`, `p = {x: 1}`. -/
theorem call_method_wire_params_witness :
    (Json.obj [("x", Json.num 1)]).isObj = true ∧
    buildWireParams "a.b.c" (some (Json.obj [("x", Json.num 1)])) =
      Json.obj [("a", Json.obj [("b", Json.obj [("c", Json.obj [("x", Json.num 1)])])])] :=
  ⟨rfl, (call_method_wire_params (Json.obj [("x", Json.num 1)]) rfl).1 "a.b.c" "a" "b" "c"
    (by decide)⟩

/-- C9: request-id generation is strictly monotonic for the lifetime of
one session object — the first id is 1, the ids strictly increase and
none repeats. -/
theorem request_id_monotonic (k : Nat) :
    issuedIds 0 k = List.range' 1 k ∧
    List.Chain' (· < ·) (issuedIds 0 k) ∧
    (issuedIds 0 k).Nodup ∧
    (issuedIds 0 (k + 1)).head? = some 1 := by
  refine ⟨issuedIds_eq_range' k 0, ?_, ?_, rfl⟩
  · rw [issuedIds_eq_range' k 0]
    exact (List.pairwise_lt_range' 1 k).chain'
  · rw [issuedIds_eq_range' k 0]
    exact List.nodup_range' 1 k

/-- C6: an inbound reply frame whose id has no pending entry is handled
as a pure notification — handling is a total function (the loop's
internal `except` clauses keep every processing error inside the loop),
the frame is only logged, and the pending table is left exactly as it
was (no entry resolved, rejected or removed). -/
theorem unmatched_reply_is_noop (pending : List Int) (data : Json) (i : Int)
    (hid : frameId? data = some i) (hnp : i ∉ pending) :
    handleMessage pending data = (pending, .notification) :=
  handleMessage_not_pending hid hnp

/-- Witness for C6: a reply with id 7 against pending ids 1 and 2. -/
theorem unmatched_reply_is_noop_witness :
    frameId? (Json.obj [("id", Json.num 7), ("result", Json.str "r")]) = some 7 ∧
    (7 : Int) ∉ ([1, 2] : List Int) ∧
    handleMessage [1, 2] (Json.obj [("id", Json.num 7), ("result", Json.str "r")]) =
      ([1, 2], .notification) :=
  ⟨rfl, by decide,
    unmatched_reply_is_noop [1, 2] (Json.obj [("id", Json.num 7), ("result", Json.str "r")])
      7 rfl (by decide)⟩

/-- C7: an inbound reply frame carrying an `error` field whose id
matches a pending request pops that request and fails it with
`RemoteMethodError` wrapping the server-supplied `error` payload
verbatim. -/
theorem error_reply_verbatim (pending : List Int) (data : Json) (i : Int) (e : Json)
    (hid : frameId? data = some i) (hp : i ∈ pending)
    (he : data.getKey? "error" = some e) :
    handleMessage pending data = (pending.erase i, .completed i (.err e)) := by
  rw [handleMessage_pending hid hp]
  simp [frameOutcome, hasKey_of_getKey? he, getD_of_getKey? he]

/-- Witness for C7: an error reply for pending id 2. -/
theorem error_reply_verbatim_witness :
    frameId? (Json.obj [("id", Json.num 2), ("error", Json.str "boom")]) = some 2 ∧
    (2 : Int) ∈ ([1, 2] : List Int) ∧
    (Json.obj [("id", Json.num 2), ("error", Json.str "boom")]).getKey? "error" =
      some (Json.str "boom") ∧
    handleMessage [1, 2] (Json.obj [("id", Json.num 2), ("error", Json.str "boom")]) =
      ([1], .completed 2 (.err (Json.str "boom"))) :=
  ⟨rfl, by decide, rfl,
    error_reply_verbatim [1, 2] (Json.obj [("id", Json.num 2), ("error", Json.str "boom")])
      2 (Json.str "boom") rfl (by decide) rfl⟩

/-- C4: a request with no reply within the 30-second timeout fails with
`RequestTimeoutError` and its pending entry is removed, so a late reply
for that id is handled as a no-op notification and never resolves the
completion slot a second time. -/
theorem timeout_then_late_reply (pending : List Int) (i : Int)
    (hnd : pending.Nodup) :
    (onRequestTimeout pending i).2 = .requestTimeout i ∧
    i ∉ (onRequestTimeout pending i).1 ∧
    (∀ data, frameId? data = some i →
      handleMessage (onRequestTimeout pending i).1 data =
        ((onRequestTimeout pending i).1, .notification)) := by
  have hno : i ∉ pending.erase i := fun hmem =>
    absurd rfl ((hnd.mem_erase_iff.mp hmem).1)
  exact ⟨rfl, hno, fun data hdata => handleMessage_not_pending hdata hno⟩

/-- Witness for C4: id 2 times out among pending ids 1 and 2; a late
reply for id 2 is a notification. -/
theorem timeout_then_late_reply_witness :
    ([1, 2] : List Int).Nodup ∧
    ((onRequestTimeout [1, 2] 2).2 = .requestTimeout 2 ∧
     (2 : Int) ∉ (onRequestTimeout [1, 2] 2).1 ∧
     (∀ data, frameId? data = some 2 →
       handleMessage (onRequestTimeout [1, 2] 2).1 data =
         ((onRequestTimeout [1, 2] 2).1, .notification))) :=
  ⟨by decide, timeout_then_late_reply [1, 2] 2 (by decide)⟩

/-- C3 counterexample: with one request pending, the receive loop's
connection-closed handler delivers zero failure completions (the claim
requires exactly one `ConnectionLostError` completion) and leaves the
entry in the pending table. -/
theorem conn_closed_counterexample :
    (onConnectionClosed ⟨some (Json.str "t"), true, [1]⟩).2.length ≠
      (⟨some (Json.str "t"), true, [1]⟩ : SessionState).pending.length ∧
    (onConnectionClosed ⟨some (Json.str "t"), true, [1]⟩).1.pending = [1] :=
  ⟨by decide, rfl⟩

/-- C3 amended: when the socket closes while requests are pending, the
receive loop exits, the liveness flag is cleared and the token is
cleared, but no pending request is failed by the handler — the pending
table is left unchanged (each entry only fails later through its own
30-second timeout); `close` likewise clears the flag and token and
fails none of the pending requests. -/
theorem conn_closed_clears_state (s : SessionState) :
    (onConnectionClosed s).1.connected = false ∧
    (onConnectionClosed s).1.token = none ∧
    (onConnectionClosed s).1.pending = s.pending ∧
    (onConnectionClosed s).2 = [] ∧
    (closeSession s).1.connected = false ∧
    (closeSession s).1.token = none ∧
    (closeSession s).1.pending = s.pending ∧
    (closeSession s).2 = [] :=
  ⟨rfl, rfl, rfl, rfl, rfl, rfl, rfl, rfl⟩

/-- C10: calling `connect` while the socket is already open returns
immediately — no socket opened, no receive loop spawned, no
authentication run, and the whole client state (token, request-id
counter, pending table, connected flag) unchanged. -/
theorem connect_already_open (s : ClientState) (r1 r2 r3 : Json)
    (h : s.wsOpen = true) :
    connectRun s r1 r2 r3 = (s, ⟨0, 0, 0⟩, .ok ()) := by
  simp [connectRun, h]

/-- Witness for C10: a connected client with nontrivial state. -/
theorem connect_already_open_witness :
    (⟨true, some (Json.str "t"), 5, [3], true⟩ : ClientState).wsOpen = true ∧
    connectRun ⟨true, some (Json.str "t"), 5, [3], true⟩ Json.null Json.null Json.null =
      (⟨true, some (Json.str "t"), 5, [3], true⟩, ⟨0, 0, 0⟩, .ok ()) :=
  ⟨rfl, connect_already_open ⟨true, some (Json.str "t"), 5, [3], true⟩
    Json.null Json.null Json.null rfl⟩

/-- Expected responses make the exchange succeed with the token of the
third response. -/
lemma authenticate_ok_of_expected {r1 r2 r3 : Json}
    (h : expectedAuthResponses r1 r2 r3 = true) :
    authenticate r1 r2 r3 = .ok (getNested r3 ["account", "answer", "token"]) := by
  unfold expectedAuthResponses at h
  simp only [Bool.and_eq_true] at h
  obtain ⟨⟨⟨⟨h1, h2⟩, h3⟩, h4⟩, h5⟩ := h
  unfold authenticate
  simp [h1, h2, h3, h4, h5]

/-- A failed check at any step makes the exchange raise. -/
lemma authenticate_error_of_unexpected {r1 r2 r3 : Json}
    (h : expectedAuthResponses r1 r2 r3 = false) :
    ∃ e, authenticate r1 r2 r3 = Except.error e := by
  unfold authenticate
  split
  · exact ⟨_, rfl⟩
  · split
    · exact ⟨_, rfl⟩
    · split
      · exact ⟨_, rfl⟩
      · exfalso
        rename_i hc1 hc2 hc3
        simp only [Bool.or_eq_true, Bool.not_eq_true', not_or] at hc1 hc2 hc3
        rw [Bool.not_eq_false] at hc2
        obtain ⟨h1, h2⟩ := hc1
        obtain ⟨h4, h5⟩ := hc3
        rw [Bool.not_eq_false] at h1 h2 h4 h5
        simp [expectedAuthResponses, h1, h2, hc2, h4, h5] at h

/-- C5: the authenticator performs the 3-step challenge-response
exchange — given the three expected server responses in order (success
status with an email question, a password question, then success status
with a truthy token) it stores the token on the session and the session
becomes ready; given a response failing its step's check, or a missing
or empty token at step 3, it raises `AuthenticationError` and the
session's token remains unset. -/
theorem auth_exchange (s : AuthState) (r1 r2 r3 : Json) (h : s.token = none) :
    (expectedAuthResponses r1 r2 r3 = true →
      (connectAuth s r1 r2 r3).1.connected = true ∧
      (connectAuth s r1 r2 r3).1.token =
        some (getNested r3 ["account", "answer", "token"]) ∧
      (getNested r3 ["account", "answer", "token"]).truthy = true) ∧
    (expectedAuthResponses r1 r2 r3 = false →
      (connectAuth s r1 r2 r3).1 = s ∧
      (connectAuth s r1 r2 r3).1.token = none ∧
      ∃ e, (connectAuth s r1 r2 r3).2 = .error e) := by
  constructor
  · intro hexp
    have htok : (getNested r3 ["account", "answer", "token"]).truthy = true := by
      unfold expectedAuthResponses at hexp
      simp only [Bool.and_eq_true] at hexp
      exact hexp.2
    rw [show connectAuth s r1 r2 r3 =
        ({ token := some (getNested r3 ["account", "answer", "token"]),
           connected := true }, .ok ()) by
      simp [connectAuth, authenticate_ok_of_expected hexp]]
    exact ⟨rfl, rfl, htok⟩
  · intro hexp
    obtain ⟨e, he⟩ := authenticate_error_of_unexpected hexp
    rw [show connectAuth s r1 r2 r3 = (s, .error e) by simp [connectAuth, he]]
    exact ⟨rfl, h, e, rfl⟩

/-- Witness for C5: the canonical good exchange — email question, then
password question, then a success status carrying token `"tok123"`. -/
theorem auth_exchange_witness :
    (⟨none, false⟩ : AuthState).token = none ∧
    expectedAuthResponses
      (Json.obj [("account", Json.obj [("auth", Json.obj
        [("status", Json.str "ACCOUNT_RESPONSE_SUCCESS"),
         ("question", Json.obj [("type", Json.str "QUESTION_TYPE_EMAIL")])])])])
      (Json.obj [("account", Json.obj [("answer", Json.obj
        [("question", Json.obj [("type", Json.str "QUESTION_TYPE_PASSWORD")])])])])
      (Json.obj [("account", Json.obj [("answer", Json.obj
        [("status", Json.str "ACCOUNT_RESPONSE_SUCCESS"),
         ("token", Json.str "tok123")])])]) = true ∧
    (connectAuth ⟨none, false⟩
      (Json.obj [("account", Json.obj [("auth", Json.obj
        [("status", Json.str "ACCOUNT_RESPONSE_SUCCESS"),
         ("question", Json.obj [("type", Json.str "QUESTION_TYPE_EMAIL")])])])])
      (Json.obj [("account", Json.obj [("answer", Json.obj
        [("question", Json.obj [("type", Json.str "QUESTION_TYPE_PASSWORD")])])])])
      (Json.obj [("account", Json.obj [("answer", Json.obj
        [("status", Json.str "ACCOUNT_RESPONSE_SUCCESS"),
         ("token", Json.str "tok123")])])])).1.connected = true ∧
    (connectAuth ⟨none, false⟩
      (Json.obj [("account", Json.obj [("auth", Json.obj
        [("status", Json.str "ACCOUNT_RESPONSE_SUCCESS"),
         ("question", Json.obj [("type", Json.str "QUESTION_TYPE_EMAIL")])])])])
      (Json.obj [("account", Json.obj [("answer", Json.obj
        [("question", Json.obj [("type", Json.str "QUESTION_TYPE_PASSWORD")])])])])
      (Json.obj [("account", Json.obj [("answer", Json.obj
        [("status", Json.str "ACCOUNT_RESPONSE_SUCCESS"),
         ("token", Json.str "tok123")])])])).1.token = some (Json.str "tok123") := by
  refine ⟨rfl, by decide, ?_⟩
  have h := (auth_exchange ⟨none, false⟩
    (Json.obj [("account", Json.obj [("auth", Json.obj
      [("status", Json.str "ACCOUNT_RESPONSE_SUCCESS"),
       ("question", Json.obj [("type", Json.str "QUESTION_TYPE_EMAIL")])])])])
    (Json.obj [("account", Json.obj [("answer", Json.obj
      [("question", Json.obj [("type", Json.str "QUESTION_TYPE_PASSWORD")])])])])
    (Json.obj [("account", Json.obj [("answer", Json.obj
      [("status", Json.str "ACCOUNT_RESPONSE_SUCCESS"),
       ("token", Json.str "tok123")])])]) rfl).1 (by decide)
  exact ⟨h.1, h.2.1⟩

/-- C1: id-based correlation of the receive loop — with distinct
pending ids and distinct reply ids, an invocation's completion slot `i`
receives exactly the outcome of the inbound frame carrying id `i`,
whatever the arrival order of the frames (the right-hand side does not
mention order, so any permutation — including the reverse of send
order — yields the same completions). -/
theorem receive_correlation (pending : List Int) (frames : List Json)
    (hp : pending.Nodup) (hf : (frames.filterMap frameId?).Nodup)
    (i : Int) (o : Outcome) :
    MsgEffect.completed i o ∈ (runReceive pending frames).2 ↔
      i ∈ pending ∧ ∃ f ∈ frames, frameId? f = some i ∧ frameOutcome f = o :=
  runReceive_completed_iff i o frames pending hp hf

/-- Witness for C1: requests 1 and 2 pending, replies arriving in the
reverse of send order; request 1 still completes with its own result. -/
theorem receive_correlation_witness :
    ([1, 2] : List Int).Nodup ∧
    (([Json.obj [("id", Json.num 2), ("result", Json.str "r2")],
       Json.obj [("id", Json.num 1), ("result", Json.str "r1")]] :
        List Json).filterMap frameId?).Nodup ∧
    MsgEffect.completed 1 (.ok (Json.str "r1")) ∈
      (runReceive [1, 2]
        [Json.obj [("id", Json.num 2), ("result", Json.str "r2")],
         Json.obj [("id", Json.num 1), ("result", Json.str "r1")]]).2 :=
  ⟨by decide, by decide,
    (receive_correlation [1, 2]
      [Json.obj [("id", Json.num 2), ("result", Json.str "r2")],
       Json.obj [("id", Json.num 1), ("result", Json.str "r1")]]
      (by decide) (by decide) 1 (.ok (Json.str "r1"))).mpr
      ⟨by decide,
       Json.obj [("id", Json.num 1), ("result", Json.str "r1")],
       List.mem_cons_of_mem _ (List.mem_cons_self _ _), rfl, rfl⟩⟩

/-- Every state reachable from the initial gate state satisfies: the
gate is set only if authentication has completed, and every frame sent
by a `call_method` invocation was sent with authentication completed. -/
lemma gateReach_invariant {s : GateState} (h : GateReach initGate s) :
    (s.gate = true → s.authDone = true) ∧ ∀ b ∈ s.sentLog, b = true := by
  induction h with
  | refl => exact ⟨fun h => absurd h (by simp [initGate]), by simp [initGate]⟩
  | tail hr step ih =>
    cases step with
    | connectAuthOk => exact ⟨fun _ => rfl, ih.2⟩
    | disconnect => exact ⟨fun hg => absurd hg (by simp), ih.2⟩
    | newCall => exact ⟨ih.1, ih.2⟩
    | passGateAndSend hg hw =>
      refine ⟨ih.1, fun b hb => ?_⟩
      rcases List.mem_append.mp hb with h1 | h2
      · exact ih.2 b h1
      · rw [List.mem_singleton.mp h2]
        exact ih.1 hg

/-- C8: `call_method` never sends a frame while the ready gate is
unset — every invocation queues at the gate, the pass-and-send step is
enabled only while the gate is set, and the gate is set only after the
3-step authentication has completed (and cleared on disconnect), so in
every reachable state every sent frame was sent after authentication
succeeded. -/
theorem call_method_gated (s : GateState) (h : GateReach initGate s) :
    (∀ b ∈ s.sentLog, b = true) ∧ (s.gate = true → s.authDone = true) :=
  ⟨(gateReach_invariant h).2, (gateReach_invariant h).1⟩

/-- Witness for C8: connect-and-authenticate, one `call_method`
invocation arrives, passes the gate and sends; its send is logged with
authentication completed. -/
theorem call_method_gated_witness :
    GateReach initGate ⟨true, true, 0, [true]⟩ ∧
    (∀ b ∈ (⟨true, true, 0, [true]⟩ : GateState).sentLog, b = true) :=
  let htr : GateReach initGate ⟨true, true, 0, [true]⟩ :=
    Relation.ReflTransGen.head (GateStep.connectAuthOk initGate)
      (Relation.ReflTransGen.head (GateStep.newCall ⟨true, true, 0, []⟩)
        (Relation.ReflTransGen.head
          (GateStep.passGateAndSend ⟨true, true, 1, []⟩ rfl (by decide))
          Relation.ReflTransGen.refl))
  ⟨htr, (call_method_gated ⟨true, true, 0, [true]⟩ htr).1⟩

end SprutHub
